import Mathlib

/-!
Shallow embedding of the Calcifer work-item orchestrator
(`src/calcifer-app/src/core/work_module.py`), its local git gateway
(`src/calcifer-app/src/core/git_module.py`) and the changelog writer
(`src/calcifer-app/src/core/documentation_module.py`).

The database session is modelled as an explicit `DB` value, the git
repository as a `GitState` record of query results (a `none` / `Except.error`
result models a caught `git.GitCommandError`), and on-disk side effects as an
explicit `GitEffect` trace.  Python string operations on ASCII data are
modelled character-wise over `List Char` so that every definition evaluates
by kernel reduction.
-/

namespace Calcifer

/-- One checklist entry, `{"item": ..., "done": ...}` in the source JSON. -/
structure ChecklistItem where
  item : String
  done : Bool
deriving DecidableEq

/-- The `WorkItem` ORM row (`models.py`), restricted to the fields the core
work-module operations read or write.  Timestamps are modelled as `Nat`. -/
structure WorkItem where
  id : Nat
  title : String
  category : String
  actionType : String
  description : String
  status : String
  notes : Option String
  gitBranch : Option String
  checklist : List ChecklistItem
  branchMerged : Bool
  mergeCommitSha : Option String
  completedDate : Option Nat
deriving DecidableEq

/-- The `Commit` ORM row linking a work item to a git commit. -/
structure CommitRecord where
  workItemId : Nat
  commitSha : String
  commitMessage : String
deriving DecidableEq

/-- The relational store: work-item rows and commit rows. -/
structure DB where
  workItems : List WorkItem
  commits : List CommitRecord
deriving DecidableEq

/-- `db.query(WorkItem).filter(WorkItem.id == work_id).first()`. -/
def DB.getWorkItem (db : DB) (workId : Nat) : Option WorkItem :=
  db.workItems.find? (fun x => x.id == workId)

/-- Persisting a mutated ORM row (`db.commit()` after attribute writes):
the row with the same primary key is replaced. -/
def DB.setWorkItem (db : DB) (w : WorkItem) : DB :=
  { db with workItems := db.workItems.map (fun x => if x.id == w.id then w else x) }

/-- Commit metadata as produced by `repo.iter_commits`. -/
structure CommitMeta where
  sha : String
  message : String
deriving DecidableEq

/-- The state of the wrapped local git repository, as the results of the
queries `GitModule` performs.  `none` / `Except.error` model a caught
`git.GitCommandError`. -/
structure GitState where
  /-- `list(repo.iter_commits(f"TARGET..BRANCH"))`, called as
  `commitsInRange target branch`. -/
  commitsInRange : String → String → Option (List CommitMeta)
  /-- `repo.git.diff("main", "--name-only")` output. -/
  diffNamesVsMain : Option String
  /-- `repo.index.commit(message).hexsha`; `none` models a git error. -/
  commitResult : String → Option String
  /-- `repo.git.add("-A")`: `some e` models a raised `GitCommandError e`. -/
  stageError : Option String
  /-- `repo.config_reader().get_value("user", "name")`; `none` models the
  exception path that falls back to `"System"`. -/
  authorName : Option String
  /-- Outcome of `merge_branch branch target`: merge commit sha or the
  stringified `GitCommandError`. -/
  mergeResult : String → String → Except String String

/-- On-disk side effects performed through the git / documentation modules. -/
inductive GitEffect where
  | checkout (branch : String)
  | changelogAppend (entry author workType : String)
  | stageAll
  | vcsCommit (message : String)
  | merge (branch target : String)
deriving DecidableEq

/-- `GitModule.is_branch_merged` (git_module.py lines 90-107): zero commits
in `target..branch` means merged; a git error yields `False`. -/
def is_branch_merged (g : GitState) (branchName : String) (targetBranch : String) : Bool :=
  match g.commitsInRange targetBranch branchName with
  | some commits => commits.length == 0
  | none => false

/-- `GitModule.get_branch_commits` (git_module.py lines 131-154):
commits in `main..branch`, at most `limit`, `[]` on a git error. -/
def get_branch_commits (g : GitState) (branchName : String) (limit : Nat) : List CommitMeta :=
  match g.commitsInRange "main" branchName with
  | some commits => commits.take limit
  | none => []

/-- `needle` starts `hay` (character lists). -/
def startsList : List Char → List Char → Bool
  | [], _ => true
  | _ :: _, [] => false
  | a :: as, b :: bs => a == b && startsList as bs

/-- Python `needle in hay` substring test, on character lists. -/
def containsSub (hay needle : List Char) : Bool :=
  match hay with
  | [] => needle.isEmpty
  | _ :: rest => startsList needle hay || containsSub rest needle

/-- `GitModule.check_changes_md_updated` (git_module.py lines 310-322):
`'docs/CHANGES.md' in repo.git.diff('main', '--name-only')`. -/
def check_changes_md_updated (g : GitState) : Bool :=
  match g.diffNamesVsMain with
  | some diff => containsSub diff.toList "docs/CHANGES.md".toList
  | none => false

/-- Python `str.lower` on ASCII data, character-wise. -/
def pyLower (s : List Char) : List Char := s.map Char.toLower

/-- Python `str.replace(" ", "-")`: the pattern is a single character, so it
is the character-wise substitution. -/
def spacesToHyphens (s : List Char) : List Char :=
  s.map (fun c => if c = ' ' then '-' else c)

/-- `GitModule.generate_branch_name` (git_module.py lines 277-295).
`dateStr` stands for `datetime.now().strftime("%Y%m%d")`. -/
def generate_branch_name (category actionType title dateStr : String) : String :=
  let sanitized := spacesToHyphens (pyLower title.toList)
  let sanitized := sanitized.filter (fun c => c.isAlphanum || c = '-')
  let sanitized := sanitized.take 30
  category ++ "/" ++ actionType ++ "/" ++ String.mk sanitized ++ "-" ++ dateStr

/-- Modelled from the spec: the slug of §4.1 `create` — "the lowercased title
with spaces replaced by hyphens, non-alphanumeric/non-hyphen characters
removed, and truncated to 30 characters". -/
def slugSpec (title : String) : String :=
  String.mk (((spacesToHyphens (pyLower title.toList)).filter
    (fun c => c.isAlphanum || c = '-')).take 30)

/-- Python `str.title` on ASCII data: a letter is uppercased when the
previous character is not a letter, lowercased otherwise. -/
def pyTitleAux : List Char → Bool → List Char
  | [], _ => []
  | c :: rest, prevCased =>
    if c.isAlpha then
      (if prevCased then c.toLower else c.toUpper) :: pyTitleAux rest true
    else
      c :: pyTitleAux rest false

/-- Python `str.title` on ASCII strings. -/
def pyTitle (s : String) : String := String.mk (pyTitleAux s.toList false)

/-- Python `str.replace("_", " ")`, character-wise (single-char pattern). -/
def underscoresToSpaces (s : List Char) : List Char :=
  s.map (fun c => if c = '_' then ' ' else c)

/-- The `WorkItem.full_type` display property (models.py lines 47-67). -/
def fullType (w : WorkItem) : String :=
  let action :=
    match w.actionType with
    | "new" => "New"
    | "change" => "Change"
    | "fix" => "Fix"
    | other => pyTitle other
  let cat :=
    match w.category with
    | "platform_feature" => "Platform Feature"
    | "integration" => "Integration"
    | "service" => "Service"
    | "documentation" => "Document"
    | other => pyTitle (String.mk (underscoresToSpaces other.toList))
  if w.actionType = "new" then "New " ++ cat else cat ++ " " ++ action

/-- `WorkModule._generate_checklist` (work_module.py lines 166-278): the
checklist template table with the generic two-item fallback. -/
def generateChecklist (category actionType : String) : List ChecklistItem :=
  match category, actionType with
  | "platform_feature", "new" =>
    [⟨"Define feature requirements and scope", false⟩,
     ⟨"Design database schema changes (if any)", false⟩,
     ⟨"Implement backend logic", false⟩,
     ⟨"Create/update UI templates", false⟩,
     ⟨"Test feature thoroughly", false⟩,
     ⟨"Document feature in work notes", false⟩,
     ⟨"Update user-facing documentation", false⟩]
  | "platform_feature", "change" =>
    [⟨"Document current behavior", false⟩,
     ⟨"Implement changes", false⟩,
     ⟨"Test changes thoroughly", false⟩,
     ⟨"Update related documentation", false⟩,
     ⟨"Verify no regressions", false⟩]
  | "platform_feature", "fix" =>
    [⟨"Reproduce the issue", false⟩,
     ⟨"Identify root cause", false⟩,
     ⟨"Implement fix", false⟩,
     ⟨"Test fix thoroughly", false⟩,
     ⟨"Verify issue is resolved", false⟩,
     ⟨"Document fix for future reference", false⟩]
  | "integration", "new" =>
    [⟨"Research integration API/requirements", false⟩,
     ⟨"Create integration module structure", false⟩,
     ⟨"Implement core integration logic", false⟩,
     ⟨"Add configuration options", false⟩,
     ⟨"Test integration end-to-end", false⟩,
     ⟨"Document integration setup", false⟩,
     ⟨"Add to integrations documentation", false⟩]
  | "integration", "change" =>
    [⟨"Document current integration behavior", false⟩,
     ⟨"Implement changes", false⟩,
     ⟨"Test integration functionality", false⟩,
     ⟨"Update integration documentation", false⟩]
  | "integration", "fix" =>
    [⟨"Reproduce integration issue", false⟩,
     ⟨"Identify root cause", false⟩,
     ⟨"Implement fix", false⟩,
     ⟨"Test integration thoroughly", false⟩,
     ⟨"Document fix", false⟩]
  | "service", "new" =>
    [⟨"Define service purpose and requirements", false⟩,
     ⟨"Check resource availability (RAM/CPU/disk)", false⟩,
     ⟨"Create docker-compose.yml or config files", false⟩,
     ⟨"Test service locally", false⟩,
     ⟨"Deploy to target VM/host", false⟩,
     ⟨"Configure monitoring/health checks", false⟩,
     ⟨"Add to service catalog in Calcifer", false⟩,
     ⟨"Document service configuration", false⟩]
  | "service", "change" =>
    [⟨"Document current service configuration", false⟩,
     ⟨"Backup existing configuration", false⟩,
     ⟨"Make configuration changes", false⟩,
     ⟨"Test changes", false⟩,
     ⟨"Update service catalog entry", false⟩,
     ⟨"Update service documentation", false⟩]
  | "service", "fix" =>
    [⟨"Identify service issue", false⟩,
     ⟨"Check logs and diagnostics", false⟩,
     ⟨"Implement fix", false⟩,
     ⟨"Restart/redeploy service", false⟩,
     ⟨"Verify service is healthy", false⟩,
     ⟨"Document fix for future reference", false⟩]
  | "documentation", "new" =>
    [⟨"Define documentation scope and audience", false⟩,
     ⟨"Create document structure/outline", false⟩,
     ⟨"Write documentation content", false⟩,
     ⟨"Add examples and code snippets", false⟩,
     ⟨"Review for clarity and accuracy", false⟩,
     ⟨"Add to docs/ directory", false⟩]
  | "documentation", "change" =>
    [⟨"Identify sections to update", false⟩,
     ⟨"Make documentation changes", false⟩,
     ⟨"Update examples if needed", false⟩,
     ⟨"Review for accuracy", false⟩]
  | _, _ =>
    [⟨"Complete the work", false⟩,
     ⟨"Document changes", false⟩]

/-- `WorkModule.create_work_item` (work_module.py lines 120-164).  `newId`
stands for the autoincrement primary key and `dateStr` for today's date;
the git branch-creation call has no bearing on the claims and is elided. -/
def create_work_item (db : DB) (newId : Nat)
    (title category actionType description dateStr : String) : WorkItem × DB :=
  let branchName := generate_branch_name category actionType title dateStr
  let w : WorkItem :=
    { id := newId, title := title, category := category,
      actionType := actionType, description := description,
      status := "planning", notes := none, gitBranch := some branchName,
      checklist := generateChecklist category actionType,
      branchMerged := false, mergeCommitSha := none, completedDate := none }
  (w, { db with workItems := db.workItems ++ [w] })

/-- Flip the `done` flag at position `n` (in-bounds positional update). -/
def flipAt : List ChecklistItem → Nat → List ChecklistItem
  | [], _ => []
  | it :: rest, 0 => { it with done := !it.done } :: rest
  | it :: rest, n + 1 => it :: flipAt rest n

/-- `WorkModule.toggle_checklist_item` (work_module.py lines 307-330).
The index is a Python `int`; `index >= len(checklist)` returns `False`,
otherwise `checklist[index]` follows Python list indexing: negative indices
address from the end, and an index below `-len` raises an uncaught
`IndexError`, modelled as `none`. -/
def toggle_checklist_item (db : DB) (workId : Nat) (index : Int) :
    Option (Bool × DB) :=
  match db.getWorkItem workId with
  | none => some (false, db)
  | some w =>
    if (w.checklist.length : Int) ≤ index then some (false, db)
    else
      let j : Int := if index < 0 then index + (w.checklist.length : Int) else index
      if j < 0 then none
      else
        let w2 := { w with checklist := flipAt w.checklist j.toNat }
        some (true, db.setWorkItem w2)

/-- Two successive toggles at the same index, returning both success flags
and the finally stored row. -/
def toggleTwice (db : DB) (workId : Nat) (index : Int) :
    Option (Bool × Bool × Option WorkItem) :=
  match toggle_checklist_item db workId index with
  | none => none
  | some (b1, db1) =>
    match toggle_checklist_item db1 workId index with
    | none => none
    | some (b2, db2) => some (b1, b2, db2.getWorkItem workId)

/-- `WorkModule.update_notes` (work_module.py lines 332-351):
`notes[:2000] if notes else None`. -/
def update_notes (db : DB) (workId : Nat) (notes : String) :
    Option WorkItem × DB :=
  match db.getWorkItem workId with
  | none => (none, db)
  | some w =>
    let w2 := { w with notes :=
      if notes = "" then none else some (String.mk (notes.toList.take 2000)) }
    (some w2, db.setWorkItem w2)

/-- Python `str.strip()` (whitespace trim on both ends), character-wise. -/
def pyStrip (s : String) : String :=
  String.mk (((s.toList.dropWhile Char.isWhitespace).reverse.dropWhile
    Char.isWhitespace).reverse)

/-- `WorkModule.commit_work` (work_module.py lines 403-480).  Returns the
`(success, message)` pair, the resulting database and the trace of on-disk
side effects.  The outer `try` catches the staging error; `GitModule.commit`
converts a git error into `None`, and Python's `if not commit_sha` also
treats an empty sha as failure. -/
def commit_work (db : DB) (g : GitState) (workId : Nat)
    (commitMessage : String) (changesEntry : String) :
    (Bool × String) × DB × List GitEffect :=
  match db.getWorkItem workId with
  | none => ((false, "Work item not found"), db, [])
  | some w =>
    if pyStrip commitMessage = "" then
      ((false, "Commit message is required"), db, [])
    else if pyStrip changesEntry = "" then
      ((false, "CHANGES.md entry is required"), db, [])
    else
      let branch := w.gitBranch.getD ""
      let checkoutEffs : List GitEffect :=
        if branch ≠ "" then [GitEffect.checkout branch] else []
      let author := g.authorName.getD "System"
      let effs1 := checkoutEffs ++
        [GitEffect.changelogAppend changesEntry author (fullType w),
         GitEffect.stageAll]
      match g.stageError with
      | some e => ((false, "Error: " ++ e), db, effs1)
      | none =>
        let effs2 := effs1 ++ [GitEffect.vcsCommit commitMessage]
        let commitSha := (g.commitResult commitMessage).getD ""
        if commitSha = "" then
          ((false, "Commit failed - no changes to commit or git error"), db, effs2)
        else
          ((true, "Changes committed successfully!"),
           { db with commits :=
               db.commits ++ [⟨workId, commitSha, commitMessage⟩] },
           effs2)

/-- Check 1 of `validate_for_completion` (work_module.py lines 499-502):
count of checklist items whose `done` flag is not set. -/
def check1Errors (w : WorkItem) : List String :=
  let incomplete := w.checklist.filter (fun it => !it.done)
  if incomplete.isEmpty then []
  else [toString incomplete.length ++ " checklist item(s) not completed"]

/-- Check 2 (lines 504-506): a branch is assigned (Python truthiness, so
`None` and the empty string both fail). -/
def check2Errors (w : WorkItem) : List String :=
  if w.gitBranch.getD "" = "" then
    ["No Git branch associated with this work item"]
  else []

/-- Check 3 (lines 508-512): the branch has commits not on `main`. -/
def check3Errors (w : WorkItem) (g : GitState) : List String :=
  if w.gitBranch.getD "" ≠ "" then
    if (get_branch_commits g (w.gitBranch.getD "") 20).isEmpty then
      ["Branch has no commits"]
    else []
  else []

/-- Check 4 (lines 514-517): `docs/CHANGES.md` modified vs. `main`. -/
def check4Errors (w : WorkItem) (g : GitState) : List String :=
  if w.gitBranch.getD "" ≠ "" then
    if check_changes_md_updated g then [] else
      ["docs/CHANGES.md not updated in this branch"]
  else []

/-- The accumulated error list of `validate_for_completion` (also inlined
verbatim in `merge_and_complete`, lines 538-558). -/
def completionErrors (w : WorkItem) (g : GitState) : List String :=
  check1Errors w ++ check2Errors w ++ check3Errors w g ++ check4Errors w g

/-- `WorkModule.validate_for_completion` (work_module.py lines 486-519). -/
def validate_for_completion (w : WorkItem) (g : GitState) :
    Bool × List String :=
  let errors := completionErrors w g
  (errors.length == 0, errors)

/-- `WorkModule.merge_and_complete` (work_module.py lines 522-584).  `now`
stands for `datetime.utcnow()`.  The validation block is the verbatim copy
of `validate_for_completion`; on the merge path `GitModule.merge_branch`
first checks out `main` and then runs the merge. -/
def merge_and_complete (db : DB) (g : GitState) (workId : Nat) (now : Nat) :
    (Bool × String) × DB × List GitEffect :=
  match db.getWorkItem workId with
  | none => ((false, "Work item not found"), db, [])
  | some w =>
    let errors := completionErrors w g
    if !errors.isEmpty then
      ((false, String.intercalate " | " errors), db, [])
    else
      let branch := w.gitBranch.getD "None"
      if is_branch_merged g branch "main" then
        let w2 := { w with branchMerged := true, status := "complete",
                           completedDate := some now }
        ((true, "Work item completed and merged successfully!"),
         db.setWorkItem w2, [])
      else
        match g.mergeResult branch "main" with
        | Except.error e =>
          ((false, "Merge failed: " ++ e), db,
           [GitEffect.checkout "main", GitEffect.merge branch "main"])
        | Except.ok sha =>
          let w2 := { w with branchMerged := true, mergeCommitSha := some sha,
                             status := "complete", completedDate := some now }
          ((true, "Work item completed and merged successfully!"),
           db.setWorkItem w2,
           [GitEffect.checkout "main", GitEffect.merge branch "main"])

/-- The header `DocumentationModule.ensure_changes_md_exists` writes
(documentation_module.py lines 127-129). -/
def changesHeader : String :=
  "# Change Log\n\nAll infrastructure changes are logged here.\n\n"

/-- `DocumentationModule.ensure_changes_md_exists` (lines 117-131) on the
changelog file state (`none` = the file does not exist): writes the header
only when the file is missing. -/
def ensure_changes_md_exists (file : Option String) : String :=
  match file with
  | none => changesHeader
  | some content => content

/-- Helper for `pyReadlines`: accumulates the current line (reversed). -/
def splitLinesAux : List Char → List Char → List String
  | [], acc => if acc.isEmpty then [] else [String.mk acc.reverse]
  | '\n' :: rest, acc => String.mk (acc.reverse ++ ['\n']) :: splitLinesAux rest []
  | c :: rest, acc => splitLinesAux rest (c :: acc)

/-- Python `f.readlines()`: split into lines, each keeping its trailing
newline; a final fragment without a newline is kept, an empty one is not. -/
def pyReadlines (s : String) : List String :=
  splitLinesAux s.toList []

/-- Python `line.startswith('## ')`. -/
def startsWithDated (line : String) : Bool :=
  startsList "## ".toList line.toList

/-- Index of the first line starting with `## `, if any. -/
def findFirstDated : List String → Option Nat
  | [] => none
  | line :: rest =>
    if startsWithDated line then some 0
    else (findFirstDated rest).map (· + 1)

/-- The insertion index of `append_to_changes_md` (lines 162-167): the first
index `i > 0` whose line starts with `## `, else the number of lines. -/
def findInsertIdx : List String → Nat
  | [] => 0
  | _ :: rest =>
    match findFirstDated rest with
    | some j => j + 1
    | none => rest.length + 1

/-- Python `list.insert(n, a)` for `n ≤ length` (clamps like Python). -/
def insertAt (l : List String) (n : Nat) (a : String) : List String :=
  l.take n ++ a :: l.drop n

/-- The formatted new section (line 160):
`f"## {today} - {author} - {work_type}\n- {entry}\n"`. -/
def newChangesEntry (entry author workType dateStr : String) : String :=
  "## " ++ dateStr ++ " - " ++ author ++ " - " ++ workType ++ "\n- " ++
    entry ++ "\n"

/-- `DocumentationModule.append_to_changes_md` (lines 133-180).  `dateStr`
stands for `datetime.now().strftime('%Y-%m-%d')`; the result is the new file
content (`f.writelines` concatenates the chunks). -/
def append_to_changes_md (file : Option String)
    (entry author workType dateStr : String) : String :=
  let content := ensure_changes_md_exists file
  let lines := pyReadlines content
  let newEntry := newChangesEntry entry author workType dateStr
  let idx := findInsertIdx lines
  let lines := insertAt lines idx "\n"
  let lines := insertAt lines (idx + 1) newEntry
  String.join lines

/-- The line list `append_to_changes_md` works on for a given file state. -/
def changesLines (file : Option String) : List String :=
  pyReadlines (ensure_changes_md_exists file)

/- ----------------------------------------------------------------- -/
/- Concrete states used by counterexamples and witnesses.            -/
/- ----------------------------------------------------------------- -/

/-- A work item with a finished checklist on branch `feature/m`. -/
def wOne : WorkItem :=
  { id := 1, title := "One", category := "service", actionType := "new",
    description := "", status := "planning", notes := none,
    gitBranch := some "feature/m", checklist := [⟨"a", true⟩],
    branchMerged := false, mergeCommitSha := none, completedDate := none }

/-- A one-row database holding `wOne`. -/
def dbOne : DB := { workItems := [wOne], commits := [] }

/-- A git state with no unique branch commits, an empty diff, and every
git operation failing: the state right after creating a branch. -/
def gEmpty : GitState :=
  { commitsInRange := fun _ _ => some [],
    diffNamesVsMain := some "",
    commitResult := fun _ => none,
    stageError := none,
    authorName := none,
    mergeResult := fun _ _ => Except.error "e" }

/-- A git state whose branches are all fully merged into `main` while the
changelog check passes: isolates the merged-branch behaviour. -/
def gMergedOk : GitState :=
  { gEmpty with diffNamesVsMain := some "docs/CHANGES.md" }

/-- A git state with one unique branch commit, a passing changelog check,
and a merge that fails with `CONFLICT`. -/
def gConflict : GitState :=
  { commitsInRange := fun _ _ => some [⟨"abc1234", "m"⟩],
    diffNamesVsMain := some "docs/CHANGES.md",
    commitResult := fun _ => some "deadbeef",
    stageError := none,
    authorName := some "Al",
    mergeResult := fun _ _ => Except.error "CONFLICT" }

/-- A freshly created service/new work item: full template checklist, no
`done` flags set. -/
def freshItem : WorkItem :=
  { id := 2, title := "T", category := "service", actionType := "new",
    description := "", status := "planning", notes := none,
    gitBranch := some "service/new/t-20250101",
    checklist := generateChecklist "service" "new",
    branchMerged := false, mergeCommitSha := none, completedDate := none }

/-- A work item with a two-entry checklist, for the toggle claims. -/
def wSix : WorkItem :=
  { id := 1, title := "Six", category := "service", actionType := "fix",
    description := "", status := "in_progress", notes := none,
    gitBranch := some "service/fix/s-20250101",
    checklist := [⟨"a", false⟩, ⟨"b", false⟩],
    branchMerged := false, mergeCommitSha := none, completedDate := none }

/-- A one-row database holding `wSix`. -/
def dbSix : DB := { workItems := [wSix], commits := [] }

/- ----------------------------------------------------------------- -/
/- Helper lemmas.                                                    -/
/- ----------------------------------------------------------------- -/

theorem flipAt_length (l : List ChecklistItem) (n : Nat) :
    (flipAt l n).length = l.length := by
  induction l generalizing n with
  | nil => rfl
  | cons it rest ih =>
    cases n with
    | zero => rfl
    | succ n => simp [flipAt, ih]

theorem flipAt_get (l : List ChecklistItem) (n j : Nat) :
    (flipAt l n).get? j =
      if j = n then (l.get? j).map (fun it => { it with done := !it.done })
      else l.get? j := by
  induction l generalizing n j with
  | nil => simp [flipAt]
  | cons it rest ih =>
    cases n with
    | zero =>
      cases j with
      | zero => simp [flipAt]
      | succ j => simp [flipAt]
    | succ n =>
      cases j with
      | zero => simp [flipAt]
      | succ j => simpa [flipAt] using ih n j

theorem flipAt_flipAt (l : List ChecklistItem) (n : Nat) :
    flipAt (flipAt l n) n = l := by
  induction l generalizing n with
  | nil => rfl
  | cons it rest ih =>
    cases n with
    | zero => cases it with | mk s b => simp [flipAt]
    | succ n => simp [flipAt, ih]

theorem getWorkItem_id (db : DB) (workId : Nat) (w : WorkItem)
    (hw : db.getWorkItem workId = some w) : w.id = workId := by
  have := List.find?_some hw
  simpa using this

theorem find?_map_set (l : List WorkItem) (workId : Nat) (w w' : WorkItem)
    (hfind : l.find? (fun x => x.id == workId) = some w) (hid : w'.id = workId) :
    (l.map (fun x => if x.id == w'.id then w' else x)).find?
      (fun x => x.id == workId) = some w' := by
  induction l with
  | nil => simp [List.find?] at hfind
  | cons a rest ih =>
    by_cases ha : a.id = workId
    · have hb : (a.id == w'.id) = true := by simp [ha, hid]
      simp only [List.map_cons, hb, if_true]
      exact List.find?_cons_of_pos _ (by simp [hid])
    · have hfind' : rest.find? (fun x => x.id == workId) = some w := by
        rwa [List.find?_cons_of_neg _ (by simp [ha])] at hfind
      have hb : ¬ ((a.id == w'.id) = true) := by simp [hid, ha]
      simp only [List.map_cons, if_neg hb]
      rw [List.find?_cons_of_neg _ (by simp [ha])]
      exact ih hfind'

theorem getWorkItem_set (db : DB) (workId : Nat) (w w' : WorkItem)
    (hw : db.getWorkItem workId = some w) (hid : w'.id = workId) :
    (db.setWorkItem w').getWorkItem workId = some w' :=
  find?_map_set db.workItems workId w w' hw hid

theorem toggle_nat (db : DB) (workId : Nat) (i : Nat) :
    toggle_checklist_item db workId (i : Int) =
      match db.getWorkItem workId with
      | none => some (false, db)
      | some w =>
        if w.checklist.length ≤ i then some (false, db)
        else some (true,
          db.setWorkItem { w with checklist := flipAt w.checklist i }) := by
  unfold toggle_checklist_item
  cases hw : db.getWorkItem workId with
  | none => rfl
  | some w =>
    by_cases hle : w.checklist.length ≤ i
    · have h1 : (w.checklist.length : Int) ≤ (i : Int) := by omega
      simp [h1, hle]
    · have h1 : ¬ ((w.checklist.length : Int) ≤ (i : Int)) := by omega
      have h2 : ¬ ((i : Int) < 0) := by omega
      have h3 : ((i : Int)).toNat = i := rfl
      simp [h1, h2, h3, hle]

theorem findFirstDated_some_spec (l : List String) (j : Nat)
    (h : findFirstDated l = some j) :
    j < l.length ∧ startsWithDated (l.getD j "") = true
      ∧ (l.take j).all (fun s => !startsWithDated s) = true := by
  induction l generalizing j with
  | nil => simp [findFirstDated] at h
  | cons a rest ih =>
    by_cases ha : startsWithDated a = true
    · unfold findFirstDated at h
      rw [if_pos ha] at h
      cases h
      simp [ha]
    · unfold findFirstDated at h
      rw [if_neg ha] at h
      cases hr : findFirstDated rest with
      | none => rw [hr] at h; simp at h
      | some j' =>
        rw [hr] at h
        simp only [Option.map_some'] at h
        cases h
        obtain ⟨h1, h2, h3⟩ := ih j' hr
        refine ⟨by simpa using h1, by simpa using h2, ?_⟩
        simpa [ha] using h3

theorem findFirstDated_none_spec (l : List String)
    (h : findFirstDated l = none) :
    l.all (fun s => !startsWithDated s) = true := by
  induction l with
  | nil => rfl
  | cons a rest ih =>
    unfold findFirstDated at h
    by_cases ha : startsWithDated a = true
    · rw [if_pos ha] at h; simp at h
    · rw [if_neg ha] at h
      cases hr : findFirstDated rest with
      | none => simp [ha, ih hr]
      | some j => rw [hr] at h; simp at h

/- ----------------------------------------------------------------- -/
/- Claim theorems.                                                   -/
/- ----------------------------------------------------------------- -/

/-- C6 counterexample: on a two-item checklist, `toggle_checklist_item`
with index `-1` — which is out of bounds of the checklist, being negative —
returns `true` and flips the last item, because Python's
`index >= len(checklist)` guard lets negative indices through to Python's
wrap-around list indexing.  The claim predicts `false` here. -/
theorem toggle_negative_index_returns_true :
    (toggle_checklist_item dbSix 1 (-1)).map Prod.fst = some true
    ∧ (toggle_checklist_item dbSix 1 (-1)).map
        (fun r => (r.2.getWorkItem 1).map (fun w => w.checklist))
      = some (some [⟨"a", false⟩, ⟨"b", true⟩])
    ∧ ¬ (0 ≤ (-1 : Int)) := by
  refine ⟨by decide, by decide, by decide⟩

/-- C6 (amended to non-negative indices): for every non-negative index,
`toggle_checklist_item` returns `false` exactly when the work item does not
exist or the index is at least the checklist length; otherwise it flips the
`done` flag at that index (leaving every other position and the item's
status unchanged) and persists the updated row. -/
theorem toggle_checklist_item_nonneg_spec (db : DB) (workId : Nat) (i : Nat) :
    match db.getWorkItem workId with
    | none => toggle_checklist_item db workId (i : Int) = some (false, db)
    | some w =>
      if i < w.checklist.length then
        toggle_checklist_item db workId (i : Int)
          = some (true, db.setWorkItem { w with checklist := flipAt w.checklist i })
        ∧ (flipAt w.checklist i).length = w.checklist.length
        ∧ (∀ j, (flipAt w.checklist i).get? j =
            if j = i then (w.checklist.get? j).map (fun it => { it with done := !it.done })
            else w.checklist.get? j)
      else
        toggle_checklist_item db workId (i : Int) = some (false, db) := by
  cases hw : db.getWorkItem workId with
  | none =>
    simp only [hw]
    rw [toggle_nat]
    simp only [hw]
  | some w =>
    simp only [hw]
    by_cases hlt : i < w.checklist.length
    · rw [if_pos hlt]
      refine ⟨?_, flipAt_length w.checklist i, fun j => flipAt_get w.checklist i j⟩
      rw [toggle_nat]
      simp only [hw]
      rw [if_neg (Nat.not_le.mpr hlt)]
    · rw [if_neg hlt, toggle_nat]
      simp only [hw]
      rw [if_pos (Nat.not_lt.mp hlt)]

/-- C7: toggling an existing in-bounds checklist index twice returns the
stored work item — in particular its checklist — to exactly its original
state, both toggles reporting success. -/
theorem toggle_checklist_item_double_restores (db : DB) (workId : Nat)
    (i : Nat) (w : WorkItem)
    (hw : db.getWorkItem workId = some w) (hi : i < w.checklist.length) :
    toggleTwice db workId (i : Int) = some (true, true, some w) := by
  have hid : w.id = workId := getWorkItem_id db workId w hw
  have key : ∀ (d : DB) (w1 : WorkItem), d.getWorkItem workId = some w1 →
      i < w1.checklist.length →
      toggle_checklist_item d workId (i : Int)
        = some (true, d.setWorkItem { w1 with checklist := flipAt w1.checklist i }) := by
    intro d w1 h hl
    rw [toggle_nat]
    simp only [h]
    rw [if_neg (Nat.not_le.mpr hl)]
  have h1 := key db w hw hi
  have hget1 : (db.setWorkItem { w with checklist := flipAt w.checklist i }).getWorkItem workId
      = some { w with checklist := flipAt w.checklist i } :=
    getWorkItem_set db workId w _ hw hid
  have h2 := key _ _ hget1 (by simpa [flipAt_length] using hi)
  rw [show ({ w with checklist := flipAt (flipAt w.checklist i) i } : WorkItem) = w
      from by rw [flipAt_flipAt]] at h2
  have hget2 : ((db.setWorkItem { w with checklist := flipAt w.checklist i }).setWorkItem w).getWorkItem workId
      = some w :=
    getWorkItem_set _ workId { w with checklist := flipAt w.checklist i } w hget1 hid
  simp only [toggleTwice, h1, h2, hget2]

/-- C7 witness: a concrete double toggle at index 0 of `dbSix`. -/
theorem toggle_checklist_item_double_restores_witness :
    dbSix.getWorkItem 1 = some wSix ∧ 0 < wSix.checklist.length
    ∧ toggleTwice dbSix 1 0 = some (true, true, some wSix) :=
  ⟨by decide, by decide,
   toggle_checklist_item_double_restores dbSix 1 0 wSix (by decide) (by decide)⟩

/-- C10: `update_notes` on a missing work item returns `none` and changes
nothing; on an existing item it stores `none` for the empty string and
otherwise at most the first 2000 characters of the supplied notes, and
persists the updated row. -/
theorem update_notes_spec (db : DB) (workId : Nat) (notes : String) :
    match db.getWorkItem workId with
    | none => update_notes db workId notes = (none, db)
    | some w =>
        update_notes db workId notes
          = (some { w with notes := (if notes = "" then none
                      else some (String.mk (notes.toList.take 2000))) },
             db.setWorkItem { w with notes := (if notes = "" then none
                      else some (String.mk (notes.toList.take 2000))) })
        ∧ (notes.toList.take 2000).length ≤ 2000 := by
  cases hw : db.getWorkItem workId with
  | none => simp [update_notes, hw]
  | some w =>
    refine ⟨by simp [update_notes, hw], ?_⟩
    exact List.length_take_le 2000 notes.toList

/-- C2: `validate_for_completion` accumulates the errors of the four checks
in order without short-circuiting (each check contributes at most one error
string, and a string is reported exactly when some check produced it), and
returns ok exactly when the error list is empty; on a freshly created
service/new work item (no branch commits, untouched checklist) it returns
ok = false with at least two distinct error strings. -/
theorem validate_for_completion_accumulates (w : WorkItem) (g : GitState) :
    ((validate_for_completion w g).1 = true ↔ (validate_for_completion w g).2 = [])
    ∧ (validate_for_completion w g).2
        = check1Errors w ++ check2Errors w ++ check3Errors w g ++ check4Errors w g
    ∧ (check1Errors w).length ≤ 1 ∧ (check2Errors w).length ≤ 1
    ∧ (check3Errors w g).length ≤ 1 ∧ (check4Errors w g).length ≤ 1
    ∧ (∀ s, s ∈ (validate_for_completion w g).2
        ↔ (s ∈ check1Errors w ∨ s ∈ check2Errors w ∨ s ∈ check3Errors w g
            ∨ s ∈ check4Errors w g))
    ∧ (validate_for_completion freshItem gEmpty).1 = false
    ∧ "8 checklist item(s) not completed" ∈ (validate_for_completion freshItem gEmpty).2
    ∧ "Branch has no commits" ∈ (validate_for_completion freshItem gEmpty).2
    ∧ ("8 checklist item(s) not completed" : String) ≠ "Branch has no commits" := by
  refine ⟨?_, rfl, ?_, ?_, ?_, ?_, ?_, by decide, by decide, by decide⟩
  · simp [validate_for_completion, List.length_eq_zero]
  · simp only [check1Errors]; split <;> simp
  · unfold check2Errors; split <;> simp
  · unfold check3Errors
    split
    · split <;> simp
    · simp
  · unfold check4Errors
    split
    · split <;> simp
    · simp
  · intro s
    simp [validate_for_completion, completionErrors, List.mem_append, or_assoc]

/-- C8: `create_work_item` allocates the branch name as
`category/action_type/slug(title)-date` where the slug is exactly the
spec's sanitization (lowercase, spaces to hyphens, non-alphanumeric and
non-hyphen characters removed, truncated to 30 characters); the concrete
scenario title produces the documented branch name, and the service/new
checklist template it installs has 8 items. -/
theorem create_work_item_branch_name (db : DB) (newId : Nat)
    (title category actionType descr dateStr : String) :
    (create_work_item db newId title category actionType descr dateStr).1.gitBranch
      = some (category ++ "/" ++ actionType ++ "/" ++ slugSpec title ++ "-" ++ dateStr)
    ∧ generate_branch_name category actionType title dateStr
      = category ++ "/" ++ actionType ++ "/" ++ slugSpec title ++ "-" ++ dateStr
    ∧ (slugSpec title).toList.length ≤ 30
    ∧ generate_branch_name "service" "new" "Add monitoring endpoint: api" "20251012"
      = "service/new/add-monitoring-endpoint-api-20251012"
    ∧ (create_work_item db newId title "service" "new" descr dateStr).1.checklist.length = 8
    ∧ (generateChecklist "service" "new").length = 8 := by
  refine ⟨rfl, rfl, ?_, by decide, rfl, rfl⟩
  exact List.length_take_le 30 _

/-- C3: a commit record is persisted if and only if the VCS commit was
created — when the commit operation is reached and reports no commit
(`None`), `commit_work` fails with the explicit no-changes-to-commit error
and leaves the database unchanged; when it returns a sha, exactly that
record is appended; when the commit operation is never reached, the
database is unchanged as well.  (The hypothesis rules out the unreal
git state reporting an empty commit sha.) -/
theorem commit_work_record_iff_vcs_commit (db : DB) (g : GitState)
    (workId : Nat) (msg entry : String)
    (hsha : g.commitResult msg ≠ some "") :
    ((g.commitResult msg = none
        ∧ GitEffect.vcsCommit msg ∈ (commit_work db g workId msg entry).2.2) →
      (commit_work db g workId msg entry).1
          = (false, "Commit failed - no changes to commit or git error")
        ∧ (commit_work db g workId msg entry).2.1 = db)
    ∧ (∀ sha, (g.commitResult msg = some sha
        ∧ GitEffect.vcsCommit msg ∈ (commit_work db g workId msg entry).2.2) →
      (commit_work db g workId msg entry).1.1 = true
        ∧ (commit_work db g workId msg entry).2.1.commits
            = db.commits ++ [⟨workId, sha, msg⟩])
    ∧ (GitEffect.vcsCommit msg ∉ (commit_work db g workId msg entry).2.2 →
      (commit_work db g workId msg entry).2.1 = db) := by
  cases hw : db.getWorkItem workId with
  | none =>
    simp [commit_work, hw]
  | some w =>
    by_cases hm : pyStrip msg = ""
    · simp [commit_work, hw, hm]
    · by_cases he : pyStrip entry = ""
      · simp [commit_work, hw, hm, he]
      · cases hst : g.stageError with
        | some e =>
          by_cases hb : w.gitBranch.getD "" = "" <;>
            simp [commit_work, hw, hm, he, hst, hb]
        | none =>
          cases hcr : g.commitResult msg with
          | none =>
            by_cases hb : w.gitBranch.getD "" = "" <;>
              simp [commit_work, hw, hm, he, hst, hb, hcr]
          | some sha =>
            have hne : sha ≠ "" := fun h => hsha (by rw [hcr, h])
            by_cases hb : w.gitBranch.getD "" = "" <;>
              simp [commit_work, hw, hm, he, hst, hb, hcr, hne]

/-- C3 witness: in a git state whose commit operation reports no commit,
`commit_work` on `dbOne` reaches the commit step, fails with the explicit
error and persists nothing. -/
theorem commit_work_record_iff_vcs_commit_witness :
    gEmpty.commitResult "m" ≠ some ""
    ∧ gEmpty.commitResult "m" = none
    ∧ GitEffect.vcsCommit "m" ∈ (commit_work dbOne gEmpty 1 "m" "e").2.2
    ∧ (commit_work dbOne gEmpty 1 "m" "e").1
        = (false, "Commit failed - no changes to commit or git error")
    ∧ (commit_work dbOne gEmpty 1 "m" "e").2.1 = dbOne := by
  refine ⟨by decide, rfl, by decide, ?_, ?_⟩
  · exact ((commit_work_record_iff_vcs_commit dbOne gEmpty 1 "m" "e"
      (by decide)).1 ⟨rfl, by decide⟩).1
  · exact ((commit_work_record_iff_vcs_commit dbOne gEmpty 1 "m" "e"
      (by decide)).1 ⟨rfl, by decide⟩).2

/-- C4: on an existing work item, `commit_work` with a message or changelog
entry that is empty after stripping whitespace fails with the matching
descriptive error, leaves the database unchanged, and performs no side
effect at all (empty effect trace: no checkout, no changelog write, no
staging, no VCS commit). -/
theorem commit_work_empty_input_no_effects (db : DB) (g : GitState)
    (workId : Nat) (msg entry : String)
    (hx : (db.getWorkItem workId).isSome = true)
    (he : pyStrip msg = "" ∨ pyStrip entry = "") :
    commit_work db g workId msg entry
      = ((false, if pyStrip msg = "" then "Commit message is required"
                 else "CHANGES.md entry is required"), db, []) := by
  obtain ⟨w, hw⟩ := Option.isSome_iff_exists.mp hx
  rcases he with h | h
  · simp [commit_work, hw, h]
  · by_cases hm : pyStrip msg = "" <;> simp [commit_work, hw, hm, h]

/-- C4 witness: a whitespace-only commit message on `dbOne` is rejected with
the descriptive error, no database change and no side effects. -/
theorem commit_work_empty_input_no_effects_witness :
    (dbOne.getWorkItem 1).isSome = true
    ∧ (pyStrip " " = "" ∨ pyStrip "x" = "")
    ∧ commit_work dbOne gEmpty 1 " " "x"
        = ((false, if pyStrip " " = "" then "Commit message is required"
                   else "CHANGES.md entry is required"), dbOne, [])
    ∧ (if pyStrip " " = "" then "Commit message is required"
       else "CHANGES.md entry is required") = "Commit message is required" :=
  ⟨by decide, Or.inl (by decide),
   commit_work_empty_input_no_effects dbOne gEmpty 1 " " "x" (by decide)
     (Or.inl (by decide)),
   by decide⟩

/-- C1 counterexample: a work item whose branch is fully merged into main
(the commit query for `main..feature/m` returns the empty list, so
`is_branch_merged` holds), with a completed checklist and an updated
changelog, is NOT completed by `merge_and_complete`: the call fails with
"Branch has no commits" — driven by the same commit query — and leaves
status `planning` and `branchMerged = false`, contradicting the claim that
it sets `branchMerged = true` and `status = complete`. -/
theorem merged_branch_claim_counterexample :
    is_branch_merged gMergedOk "feature/m" "main" = true
    ∧ (merge_and_complete dbOne gMergedOk 1 0).1 = (false, "Branch has no commits")
    ∧ (merge_and_complete dbOne gMergedOk 1 0).2.1 = dbOne
    ∧ (dbOne.getWorkItem 1).map (fun w => w.status) = some "planning"
    ∧ (dbOne.getWorkItem 1).map (fun w => w.branchMerged) = some false := by
  refine ⟨by decide, by decide, by decide, by decide, by decide⟩

/-- C1 (amended): for every work item whose branch is fully merged into the
trunk, `merge_and_complete` never reaches the merge phase — the
branch-has-no-commits validation check, which runs the same branch-vs-trunk
commit query as the merged test, fails — so the call returns failure,
performs no merge (empty effect trace), and leaves the stored work item
unchanged; the already-merged fast path is unreachable. -/
theorem merged_branch_fails_validation (db : DB) (g : GitState)
    (workId now : Nat) (w : WorkItem) (b : String)
    (hw : db.getWorkItem workId = some w)
    (hb : w.gitBranch = some b) (hbne : b ≠ "")
    (hmerged : g.commitsInRange "main" b = some []) :
    "Branch has no commits" ∈ completionErrors w g
    ∧ (merge_and_complete db g workId now).1.1 = false
    ∧ (merge_and_complete db g workId now).2.1 = db
    ∧ (merge_and_complete db g workId now).2.2 = [] := by
  have hbd : w.gitBranch.getD "" = b := by rw [hb]; rfl
  have h3 : check3Errors w g = ["Branch has no commits"] := by
    unfold check3Errors get_branch_commits
    rw [hbd, hmerged]
    simp [hbne]
  have hmem : "Branch has no commits" ∈ completionErrors w g := by
    unfold completionErrors
    rw [h3]
    simp
  have hE : (completionErrors w g).isEmpty = false := by
    cases hc : completionErrors w g with
    | nil => rw [hc] at hmem; cases hmem
    | cons x xs => rfl
  refine ⟨hmem, ?_, ?_, ?_⟩ <;> simp [merge_and_complete, hw, hE]

/-- C1 witness: the amended behaviour on the concrete fully-merged state. -/
theorem merged_branch_fails_validation_witness :
    dbOne.getWorkItem 1 = some wOne
    ∧ wOne.gitBranch = some "feature/m"
    ∧ "feature/m" ≠ ""
    ∧ gMergedOk.commitsInRange "main" "feature/m" = some []
    ∧ ("Branch has no commits" ∈ completionErrors wOne gMergedOk
       ∧ (merge_and_complete dbOne gMergedOk 1 0).1.1 = false
       ∧ (merge_and_complete dbOne gMergedOk 1 0).2.1 = dbOne
       ∧ (merge_and_complete dbOne gMergedOk 1 0).2.2 = []) :=
  ⟨by decide, by decide, by decide, rfl,
   merged_branch_fails_validation dbOne gMergedOk 1 0 wOne "feature/m"
     (by decide) (by decide) (by decide) rfl⟩

/-- C5 counterexample: on a merge-phase failure the message returned by
`merge_and_complete` is the underlying git error wrapped in a
`"Merge failed: "` prefix, not the underlying error verbatim as the claim
states. -/
theorem merge_error_message_not_verbatim :
    (merge_and_complete dbOne gConflict 1 0).1 = (false, "Merge failed: CONFLICT")
    ∧ gConflict.mergeResult "feature/m" "main" = Except.error "CONFLICT"
    ∧ (merge_and_complete dbOne gConflict 1 0).1.2 ≠ "CONFLICT" := by
  refine ⟨by decide, rfl, by decide⟩

/-- C5 (amended): whenever `merge_and_complete` fails — work item missing,
validation errors (returned joined by " | "), or merge failure (returned as
the underlying error prefixed with "Merge failed: ") — the database, and so
every field of the work item (status, branchMerged, merge commit sha,
completed timestamp), is left unchanged, so callers may retry. -/
theorem merge_and_complete_failure_frame (db : DB) (g : GitState)
    (workId now : Nat)
    (hfail : (merge_and_complete db g workId now).1.1 = false) :
    (merge_and_complete db g workId now).2.1 = db
    ∧ ((merge_and_complete db g workId now).1.2 = "Work item not found"
       ∨ (∃ w, db.getWorkItem workId = some w
            ∧ (merge_and_complete db g workId now).1.2
                = String.intercalate " | " (completionErrors w g))
       ∨ (∃ w e, db.getWorkItem workId = some w
            ∧ g.mergeResult (w.gitBranch.getD "None") "main" = Except.error e
            ∧ (merge_and_complete db g workId now).1.2 = "Merge failed: " ++ e)) := by
  cases hw : db.getWorkItem workId with
  | none =>
    refine ⟨?_, Or.inl ?_⟩ <;> simp [merge_and_complete, hw]
  | some w =>
    cases hE : (completionErrors w g).isEmpty with
    | false =>
      refine ⟨?_, Or.inr (Or.inl ⟨w, rfl, ?_⟩)⟩ <;>
        simp [merge_and_complete, hw, hE]
    | true =>
      cases hm : is_branch_merged g (w.gitBranch.getD "None") "main" with
      | true =>
        exfalso
        rw [show (merge_and_complete db g workId now).1.1 = true from by
          simp [merge_and_complete, hw, hE, hm]] at hfail
        cases hfail
      | false =>
        cases hmr : g.mergeResult (w.gitBranch.getD "None") "main" with
        | ok sha =>
          exfalso
          rw [show (merge_and_complete db g workId now).1.1 = true from by
            simp [merge_and_complete, hw, hE, hm, hmr]] at hfail
          cases hfail
        | error e =>
          refine ⟨?_, Or.inr (Or.inr ⟨w, e, rfl, hmr, ?_⟩)⟩ <;>
            simp [merge_and_complete, hw, hE, hm, hmr]

/-- C5 witness: the concrete failing merge leaves the database unchanged. -/
theorem merge_and_complete_failure_frame_witness :
    (merge_and_complete dbOne gConflict 1 0).1.1 = false
    ∧ (merge_and_complete dbOne gConflict 1 0).2.1 = dbOne :=
  ⟨by decide,
   (merge_and_complete_failure_frame dbOne gConflict 1 0 (by decide)).1⟩

/-- C9: `append_to_changes_md` first ensures the document exists — creating
it with exactly the fixed two-line header when missing and leaving any
existing content untouched, so the header is never written twice — and then
splices the new dated section at the insertion index, which either sits
immediately before the first existing dated (`## `) section (no dated line
lies strictly between the header line and it), giving newest-first
ordering, or equals the line count (end of file) when no dated section
exists after the first line. -/
theorem append_to_changes_md_spec (file : Option String) (e a w d : String) :
    append_to_changes_md file e a w d
      = String.join (insertAt (insertAt (changesLines file)
          (findInsertIdx (changesLines file)) "\n")
          (findInsertIdx (changesLines file) + 1) (newChangesEntry e a w d))
    ∧ findInsertIdx (changesLines file) ≤ (changesLines file).length
    ∧ (((changesLines file).take (findInsertIdx (changesLines file))).drop 1).all
        (fun s => !startsWithDated s) = true
    ∧ ((0 < findInsertIdx (changesLines file)
         ∧ startsWithDated ((changesLines file).getD (findInsertIdx (changesLines file)) "")
             = true)
       ∨ (findInsertIdx (changesLines file) = (changesLines file).length
           ∧ ((changesLines file).drop 1).all (fun s => !startsWithDated s) = true))
    ∧ ensure_changes_md_exists none = changesHeader
    ∧ (∀ c, ensure_changes_md_exists (some c) = c) := by
  refine ⟨rfl, ?_, ?_, ?_, rfl, fun c => rfl⟩
  · cases hl : changesLines file with
    | nil => simp [findInsertIdx]
    | cons hd rest =>
      cases hr : findFirstDated rest with
      | some j =>
        obtain ⟨h1, _, _⟩ := findFirstDated_some_spec rest j hr
        simp only [findInsertIdx, hr, List.length_cons]
        omega
      | none => simp [findInsertIdx, hr]
  · cases hl : changesLines file with
    | nil => simp [findInsertIdx]
    | cons hd rest =>
      cases hr : findFirstDated rest with
      | some j =>
        obtain ⟨_, _, h3⟩ := findFirstDated_some_spec rest j hr
        simp only [findInsertIdx, hr]
        simpa [List.take_succ_cons] using h3
      | none =>
        have hall := findFirstDated_none_spec rest hr
        simp only [findInsertIdx, hr]
        simpa [List.take_succ_cons, List.take_length] using hall
  · cases hl : changesLines file with
    | nil => exact Or.inr ⟨rfl, rfl⟩
    | cons hd rest =>
      cases hr : findFirstDated rest with
      | some j =>
        obtain ⟨_, h2, _⟩ := findFirstDated_some_spec rest j hr
        simp only [findInsertIdx, hr]
        refine Or.inl ⟨Nat.succ_pos j, ?_⟩
        simpa [List.getD_cons_succ] using h2
      | none =>
        have hall := findFirstDated_none_spec rest hr
        simp only [findInsertIdx, hr]
        refine Or.inr ⟨by simp, ?_⟩
        simpa using hall

end Calcifer
